import Mathlib

/-!
# The Green Pulse — certification-scoring engine, shallow embedding

A shallow embedding of the certification-scoring and recommendation-ranking
engine of the repository:

* `src/green_certification.py` — `GreenBuildingAssessor` with
  `calculate_leed_ea_credits`, `estimate_baseline_emissions`,
  `assess_building`, `_generate_cert_recommendations`;
* `src/app.py` — `calculate_improvement_roi`.

Python floats are modelled as exact rationals (`ℚ`).  Python's built-in
`round(x, n)` (round-half-to-even to `n` decimal places, up to
binary-representation effects which the rational model elides) is modelled
by `round1` / `round2` below.  Python dictionaries with `.get` defaults are
modelled as association lists / `Option`-valued fields.  A Python function
that can raise is modelled with `Except` (`calculate_improvement_roi`
divides by `initial_cost`, which raises `ZeroDivisionError` when zero).
-/

/-- Round-half-to-even to the nearest integer (the rounding mode of Python's
built-in `round`). -/
def rhe (x : ℚ) : ℤ :=
  if x - ⌊x⌋ < 1/2 then ⌊x⌋
  else if 1/2 < x - ⌊x⌋ then ⌊x⌋ + 1
  else if ⌊x⌋ % 2 = 0 then ⌊x⌋ else ⌊x⌋ + 1

/-- Python's `round(x, 1)`: round to one decimal place, ties to even. -/
def round1 (x : ℚ) : ℚ := (rhe (10 * x) : ℚ) / 10

/-- Python's `round(x, 2)`: round to two decimal places, ties to even. -/
def round2 (x : ℚ) : ℚ := (rhe (100 * x) : ℚ) / 100

/-- `self.leed_ea_points` from `GreenBuildingAssessor.__init__`
(`src/green_certification.py` lines 20-23): the parallel lists
`points = [1,2,3,5,7,9,11,13,15,17,18]` and
`improvement_pct = [2,4,6,10,14,18,22,26,30,34,36]`, zipped into
(points, improvement-threshold) pairs as the loops of
`calculate_leed_ea_credits` read them (index `i` gives the pair). -/
def leed_ea_points : List (ℕ × ℚ) :=
  [(1, 2), (2, 4), (3, 6), (5, 10), (7, 14), (9, 18), (11, 22),
   (13, 26), (15, 30), (17, 34), (18, 36)]

/-- Line 47: `improvement_pct = ((baseline_emissions - predicted_emissions) / baseline_emissions) * 100`. -/
def improvement_pct (predicted_emissions baseline_emissions : ℚ) : ℚ :=
  (baseline_emissions - predicted_emissions) / baseline_emissions * 100

/-- Lines 50-53: the `earned_credits` loop — start at `0`, and for each table
entry in order overwrite with its points whenever
`improvement_pct >= threshold`. -/
def earned_credits_of (imp : ℚ) : ℕ :=
  leed_ea_points.foldl (fun acc p => if imp ≥ p.2 then p.1 else acc) 0

/-- Lines 60-67: the next-level loop — the first table entry whose threshold
strictly exceeds `improvement_pct`, if any (the loop breaks at the first
`improvement_pct < threshold`). -/
def next_level_of (imp : ℚ) : Option (ℕ × ℚ) :=
  leed_ea_points.find? (fun p => decide (imp < p.2))

/-- The result dictionary of `calculate_leed_ea_credits` (lines 69-77). -/
structure LeedResult where
  current_improvement_pct : ℚ
  earned_credits : ℕ
  max_credits : ℕ
  next_level_credits : Option ℕ
  next_level_improvement_pct : Option ℚ
  emissions_reduction_needed_tons : ℚ
  certification_eligible : Bool
  deriving Repr, DecidableEq

/-- `GreenBuildingAssessor.calculate_leed_ea_credits`
(`src/green_certification.py` lines 34-77).  `emissions_reduction_needed`
is `predicted - baseline * (1 - next_level_pct/100)` when a next level
exists, `0` otherwise; the returned field applies the source's
`round(emissions_reduction_needed, 1) if emissions_reduction_needed > 0 else 0`. -/
def calculate_leed_ea_credits (predicted_emissions baseline_emissions : ℚ) : LeedResult :=
  let imp := improvement_pct predicted_emissions baseline_emissions
  let earned := earned_credits_of imp
  let next := next_level_of imp
  let emissions_reduction_needed : ℚ :=
    match next with
    | none => 0
    | some p => predicted_emissions - baseline_emissions * (1 - p.2 / 100)
  { current_improvement_pct := round1 imp
    earned_credits := earned
    max_credits := 18
    next_level_credits := next.map Prod.fst
    next_level_improvement_pct := next.map Prod.snd
    emissions_reduction_needed_tons :=
      if emissions_reduction_needed > 0 then round1 emissions_reduction_needed else 0
    certification_eligible := decide (earned ≥ 1) }

/-- The `baseline_eui` table of `estimate_baseline_emissions`
(`src/green_certification.py` lines 88-96). -/
def baseline_eui : List (String × ℚ) :=
  [("Office", 58), ("Retail", 52), ("Healthcare", 215), ("Educational", 70),
   ("Warehouse", 32), ("Multi-Family", 46), ("Hotel", 88)]

/-- Line 98: `eui = baseline_eui.get(building_type, 60)`. -/
def eui_lookup (building_type : String) : ℚ :=
  ((baseline_eui.find? (fun p => p.1 == building_type)).map Prod.snd).getD 60

/-- `GreenBuildingAssessor.estimate_baseline_emissions`
(`src/green_certification.py` lines 79-106):
`total_energy_kbtu = floor_area * eui`, `co2_kg = total_energy_kbtu * 0.145`,
`co2_tons = co2_kg / 1000`. -/
def estimate_baseline_emissions (floor_area : ℚ) (building_type : String) : ℚ :=
  let eui := eui_lookup building_type
  let total_energy_kbtu := floor_area * eui
  let co2_kg := total_energy_kbtu * (0.145 : ℚ)
  co2_kg / 1000

/-- The `current_features` dictionary consumed by
`_generate_cert_recommendations`; `Option` fields model `dict.get`
(`features.get('renewable_pct', 0)` is `(renewable_pct.getD 0)`,
`features.get('hvac_type')` is the raw `Option`). -/
structure Features where
  renewable_pct : Option ℚ
  hvac_type : Option String
  insulation_rating : Option String
  led_lighting_pct : Option ℚ
  deriving Repr, DecidableEq

/-- One entry of the recommendation list built by
`_generate_cert_recommendations`. -/
structure Recommendation where
  category : String
  action : String
  leed_credits : String
  estimated_impact_tons : ℚ
  cost_consideration : String
  deriving Repr, DecidableEq

/-- The descending-by-impact order used by
`recommendations.sort(key=lambda x: x['estimated_impact_tons'], reverse=True)`
(line 199).  Python's `list.sort` is stable; a stable descending sort is the
insertion sort along this relation. -/
def impGE (a b : Recommendation) : Prop :=
  b.estimated_impact_tons ≤ a.estimated_impact_tons

instance : DecidableRel impGE := fun a b =>
  inferInstanceAs (Decidable (b.estimated_impact_tons ≤ a.estimated_impact_tons))

instance : IsTotal Recommendation impGE :=
  ⟨fun a b => (le_total b.estimated_impact_tons a.estimated_impact_tons).imp id id⟩

instance : IsTrans Recommendation impGE :=
  ⟨fun _ _ _ h₁ h₂ => le_trans h₂ h₁⟩

/-- The four conditional appends of `_generate_cert_recommendations`
(`src/green_certification.py` lines 156-196), before sorting. -/
def cert_rule_list (features : Features) (target_reduction : ℚ) : List Recommendation :=
  (if features.renewable_pct.getD 0 < 30 then
    [{ category := "Renewable Energy"
       action := "Increase on-site renewable energy to 30%"
       leed_credits := "EA Credit: Renewable Energy Production"
       estimated_impact_tons := target_reduction * (0.3 : ℚ)
       cost_consideration := "High initial investment, 5-7 year payback" }] else [])
  ++ (if features.hvac_type = some "Gas Furnace" ∨ features.hvac_type = some "Electric Baseboard" then
    [{ category := "HVAC Efficiency"
       action := "Upgrade to high-efficiency heat pump or geothermal"
       leed_credits := "EA Prerequisite: Minimum Energy Performance"
       estimated_impact_tons := target_reduction * (0.25 : ℚ)
       cost_consideration := "Medium investment, 3-5 year payback" }] else [])
  ++ (if features.insulation_rating = some "Poor" ∨ features.insulation_rating = some "Fair" then
    [{ category := "Building Envelope"
       action := "Upgrade insulation and air sealing"
       leed_credits := "EA Credit: Optimize Energy Performance"
       estimated_impact_tons := target_reduction * (0.20 : ℚ)
       cost_consideration := "Low-medium investment, immediate impact" }] else [])
  ++ (if features.led_lighting_pct.getD 0 < 90 then
    [{ category := "Lighting Systems"
       action := "Complete LED retrofit with occupancy sensors"
       leed_credits := "EA Credit: Optimize Energy Performance"
       estimated_impact_tons := target_reduction * (0.10 : ℚ)
       cost_consideration := "Low investment, 2-3 year payback" }] else [])

/-- `GreenBuildingAssessor._generate_cert_recommendations`
(`src/green_certification.py` lines 151-201): build the fired rules in
order, then sort by `estimated_impact_tons` descending (stable). -/
def generate_cert_recommendations (features : Features) (target_reduction : ℚ) :
    List Recommendation :=
  List.insertionSort impGE (cert_rule_list features target_reduction)

/-- The performance-rating ladder inlined in `assess_building`
(`src/green_certification.py` lines 125-134). -/
def performance_rating_of (earned : ℕ) : String :=
  if earned ≥ 13 then "Exceptional"
  else if earned ≥ 7 then "High Performance"
  else if earned ≥ 3 then "Above Average"
  else if earned ≥ 1 then "Slightly Above Baseline"
  else "Below Baseline"

/-- The result dictionary of `assess_building` (lines 142-149). -/
structure Assessment where
  baseline_emissions_tons : ℚ
  predicted_emissions_tons : ℚ
  performance_rating : String
  leed_assessment : LeedResult
  emissions_intensity_kg_sqft : ℚ
  recommendations : List Recommendation
  deriving Repr, DecidableEq

/-- `GreenBuildingAssessor.assess_building`
(`src/green_certification.py` lines 108-149). -/
def assess_building (predicted_emissions floor_area : ℚ) (building_type : String)
    (current_features : Features) : Assessment :=
  let baseline := estimate_baseline_emissions floor_area building_type
  let leed := calculate_leed_ea_credits predicted_emissions baseline
  let emissions_per_sqft := predicted_emissions * 1000 / floor_area
  let recommendations :=
    generate_cert_recommendations current_features leed.emissions_reduction_needed_tons
  { baseline_emissions_tons := round1 baseline
    predicted_emissions_tons := round1 predicted_emissions
    performance_rating := performance_rating_of leed.earned_credits
    leed_assessment := leed
    emissions_intensity_kg_sqft := round2 emissions_per_sqft
    recommendations := recommendations }

/-! ## `calculate_improvement_roi` (`src/app.py` lines 210-230) -/

/-- One value of the `roi_data` dictionary in `calculate_improvement_roi`. -/
structure RoiEntry where
  cost_per_sqft : ℚ
  reduction_pct : ℚ
  payback_years : ℚ
  annual_savings_per_ton : ℚ
  deriving Repr, DecidableEq

/-- The `roi_data` dictionary of `calculate_improvement_roi`
(`src/app.py` lines 211-217). -/
def roi_data : List (String × RoiEntry) :=
  [("Renewable Energy (Solar)",
     { cost_per_sqft := 8.5, reduction_pct := 25, payback_years := 6,
       annual_savings_per_ton := 50 }),
   ("HVAC Upgrade (Heat Pump)",
     { cost_per_sqft := 12, reduction_pct := 20, payback_years := 4.5,
       annual_savings_per_ton := 65 }),
   ("Insulation Upgrade",
     { cost_per_sqft := 3.5, reduction_pct := 15, payback_years := 3,
       annual_savings_per_ton := 55 }),
   ("LED Retrofit",
     { cost_per_sqft := 1.2, reduction_pct := 8, payback_years := 2,
       annual_savings_per_ton := 45 }),
   ("Building Envelope",
     { cost_per_sqft := 5.5, reduction_pct := 18, payback_years := 4,
       annual_savings_per_ton := 58 })]

/-- The returned dictionary of `calculate_improvement_roi`
(`src/app.py` lines 224-230). -/
structure RoiResult where
  initial_cost : ℚ
  emissions_reduction_tons : ℚ
  annual_cost_savings : ℚ
  payback_period_years : ℚ
  roi_5_year : ℚ
  roi_10_year : ℚ
  reduction_pct : ℚ
  deriving Repr, DecidableEq

/-- `calculate_improvement_roi` (`src/app.py` lines 210-230).  The Python
function returns `None` on an unknown `improvement_type` (modelled
`Except.ok none`); on a known type it divides by `initial_cost`, which in
Python raises `ZeroDivisionError` when `initial_cost == 0` (modelled
`Except.error`).  The `building_type` parameter is accepted but never read. -/
def calculate_improvement_roi (improvement_type : String)
    (current_emissions floor_area : ℚ) (building_type : String) :
    Except String (Option RoiResult) :=
  match (roi_data.find? (fun p => p.1 == improvement_type)).map Prod.snd with
  | none => .ok none
  | some data =>
    let initial_cost := floor_area * data.cost_per_sqft
    if initial_cost = 0 then .error "ZeroDivisionError"
    else
      let emissions_reduction := current_emissions * (data.reduction_pct / 100)
      let annual_savings := emissions_reduction * data.annual_savings_per_ton
      .ok (some
        { initial_cost := initial_cost
          emissions_reduction_tons := emissions_reduction
          annual_cost_savings := annual_savings
          payback_period_years := data.payback_years
          roi_5_year := (annual_savings * 5 - initial_cost) / initial_cost * 100
          roi_10_year := (annual_savings * 10 - initial_cost) / initial_cost * 100
          reduction_pct := data.reduction_pct })

/-! ## Definitions written from the spec's words (for refinement claims) -/

/-- Modelled from the spec (§4.2 step 2): `earned_credits` is the points
value of the **highest** threshold in the tier table not exceeding
`improvement_pct` (inclusive comparison), i.e. the last satisfied entry in
ascending scan order; `0` when no threshold is satisfied. -/
def earned_credits_spec (imp : ℚ) : ℕ :=
  ((leed_ea_points.reverse.find? (fun p => decide (p.2 ≤ imp))).map Prod.fst).getD 0

/-- Modelled from the spec (§4.2 step 3): the next tier is the first table
entry whose threshold strictly exceeds `improvement_pct`, or none when
`improvement_pct` meets or exceeds the maximum threshold. -/
def next_tier_spec (imp : ℚ) : Option (ℕ × ℚ) :=
  leed_ea_points.find? (fun p => decide (imp < p.2))

/-- Modelled from the spec (§4.4): the fixed rule set of the recommendation
generator — renewable < 30 fires with impact share 0.30 × outstanding,
gas-furnace / electric-baseboard HVAC with 0.25, poor/fair insulation with
0.20, LED < 90 with 0.10, each carrying that category's fixed strings; the
rules are listed in evaluation order, unsorted. -/
def fired_rules_spec (features : Features) (outstanding : ℚ) : List Recommendation :=
  (if features.renewable_pct.getD 0 < 30 then
    [{ category := "Renewable Energy"
       action := "Increase on-site renewable energy to 30%"
       leed_credits := "EA Credit: Renewable Energy Production"
       estimated_impact_tons := outstanding * (0.3 : ℚ)
       cost_consideration := "High initial investment, 5-7 year payback" }] else [])
  ++ (if features.hvac_type = some "Gas Furnace" ∨ features.hvac_type = some "Electric Baseboard" then
    [{ category := "HVAC Efficiency"
       action := "Upgrade to high-efficiency heat pump or geothermal"
       leed_credits := "EA Prerequisite: Minimum Energy Performance"
       estimated_impact_tons := outstanding * (0.25 : ℚ)
       cost_consideration := "Medium investment, 3-5 year payback" }] else [])
  ++ (if features.insulation_rating = some "Poor" ∨ features.insulation_rating = some "Fair" then
    [{ category := "Building Envelope"
       action := "Upgrade insulation and air sealing"
       leed_credits := "EA Credit: Optimize Energy Performance"
       estimated_impact_tons := outstanding * (0.20 : ℚ)
       cost_consideration := "Low-medium investment, immediate impact" }] else [])
  ++ (if features.led_lighting_pct.getD 0 < 90 then
    [{ category := "Lighting Systems"
       action := "Complete LED retrofit with occupancy sensors"
       leed_credits := "EA Credit: Optimize Energy Performance"
       estimated_impact_tons := outstanding * (0.10 : ℚ)
       cost_consideration := "Low investment, 2-3 year payback" }] else [])

/-! ## Helper lemmas -/

/-- The `earned_credits` loop keeps the points of the *last* table entry whose
threshold is satisfied: the fold equals a first-match search over the
reversed list. -/
lemma foldl_earn_eq_reverse_find (imp : ℚ) :
    ∀ (l : List (ℕ × ℚ)) (a : ℕ),
      l.foldl (fun acc p => if imp ≥ p.2 then p.1 else acc) a
        = ((l.reverse.find? (fun p => decide (p.2 ≤ imp))).map Prod.fst).getD a := by
  intro l
  induction l with
  | nil => intro a; rfl
  | cons x xs ih =>
    intro a
    rw [List.foldl_cons, ih, List.reverse_cons, List.find?_append]
    cases h : xs.reverse.find? (fun p => decide (p.2 ≤ imp)) with
    | some v => simp [Option.or]
    | none =>
      by_cases hc : x.2 ≤ imp <;>
        simp [Option.or, List.find?, hc, ge_iff_le]

/-- Monotonicity of the `earned_credits` fold: a larger improvement, started
from a larger accumulator below every points entry, yields at least as many
credits, provided the points are scanned in non-decreasing order. -/
lemma foldl_earn_mono {imp imp' : ℚ} (h : imp ≤ imp') :
    ∀ (l : List (ℕ × ℚ)) (a a' : ℕ), a ≤ a' → (∀ p ∈ l, a ≤ p.1) →
      l.Pairwise (fun p q => p.1 ≤ q.1) →
      l.foldl (fun acc p => if imp ≥ p.2 then p.1 else acc) a ≤
        l.foldl (fun acc p => if imp' ≥ p.2 then p.1 else acc) a' := by
  intro l
  induction l with
  | nil =>
    intro a a' haa _ _
    exact haa
  | cons x xs ih =>
    intro a a' haa hbound hpw
    rw [List.pairwise_cons] at hpw
    simp only [List.foldl_cons]
    apply ih
    · by_cases h1 : imp ≥ x.2
      · have h2 : imp' ≥ x.2 := le_trans h1 h
        rw [if_pos h1, if_pos h2]
      · by_cases h2 : imp' ≥ x.2
        · rw [if_neg h1, if_pos h2]
          exact hbound x (List.mem_cons_self x xs)
        · rw [if_neg h1, if_neg h2]
          exact haa
    · intro p hp
      by_cases h1 : imp ≥ x.2
      · rw [if_pos h1]
        exact hpw.1 p hp
      · rw [if_neg h1]
        exact hbound p (List.mem_cons_of_mem x hp)
    · exact hpw.2

/-- Inserting an element whose impact dominates the whole list puts it in
front. -/
lemma orderedInsert_impGE_cons (a : Recommendation) :
    ∀ (l : List Recommendation),
      (∀ x ∈ l, x.estimated_impact_tons ≤ a.estimated_impact_tons) →
      List.orderedInsert impGE a l = a :: l
  | [], _ => rfl
  | b :: l, h => by
    have hab : impGE a b := h b (List.mem_cons_self b l)
    simp [List.orderedInsert, hab]

/-- Sorting a list whose impacts are all equal leaves it unchanged (the
stability tie case). -/
lemma insertionSort_impGE_of_const {v : ℚ} :
    ∀ (l : List Recommendation),
      (∀ x ∈ l, x.estimated_impact_tons = v) →
      List.insertionSort impGE l = l
  | [], _ => rfl
  | a :: l, h => by
    rw [List.insertionSort,
      insertionSort_impGE_of_const l (fun x hx => h x (List.mem_cons_of_mem a hx))]
    exact orderedInsert_impGE_cons a l (fun x hx => by
      rw [h x (List.mem_cons_of_mem a hx), h a (List.mem_cons_self a l)])

/-- Every rule the recommendation generator can fire carries one of the four
fixed impact shares of the outstanding gap. -/
lemma mem_cert_rule_list {f : Features} {g : ℚ} {x : Recommendation}
    (hx : x ∈ cert_rule_list f g) :
    x.estimated_impact_tons = g * (0.3 : ℚ) ∨ x.estimated_impact_tons = g * (0.25 : ℚ) ∨
      x.estimated_impact_tons = g * (0.20 : ℚ) ∨ x.estimated_impact_tons = g * (0.10 : ℚ) := by
  unfold cert_rule_list at hx
  simp only [List.mem_append] at hx
  rcases hx with ((h | h) | h) | h <;> split_ifs at h <;> simp_all

/-- Every entry of the EUI table, and the default, is strictly positive. -/
lemma eui_lookup_pos (t : String) : 0 < eui_lookup t := by
  unfold eui_lookup
  cases h : baseline_eui.find? (fun p => p.1 == t) with
  | none => simp [h]
  | some p =>
    have hmem : p ∈ baseline_eui := List.mem_of_find?_eq_some h
    show (0 : ℚ) < p.2
    fin_cases hmem <;> norm_num

/-- Round-half-to-even never sends a nonnegative number below zero. -/
lemma rhe_nonneg {x : ℚ} (hx : 0 ≤ x) : 0 ≤ rhe x := by
  unfold rhe
  have hf : (0 : ℤ) ≤ ⌊x⌋ := Int.floor_nonneg.mpr hx
  split_ifs <;> omega

/-- `round1` of a nonnegative number is nonnegative. -/
lemma round1_nonneg {x : ℚ} (hx : 0 ≤ x) : 0 ≤ round1 x := by
  unfold round1
  have h : (0 : ℤ) ≤ rhe (10 * x) := rhe_nonneg (by linarith)
  have h' : (0 : ℚ) ≤ (rhe (10 * x) : ℚ) := by exact_mod_cast h
  linarith

/-- The clamped-and-rounded reported reduction field is always nonnegative. -/
lemma emissions_reduction_nonneg (predicted baseline : ℚ) :
    0 ≤ (calculate_leed_ea_credits predicted baseline).emissions_reduction_needed_tons := by
  unfold calculate_leed_ea_credits
  simp only
  split_ifs with hpos
  · exact round1_nonneg (le_of_lt hpos)
  · exact le_refl 0

/-- The set of building types listed in the `baseline_eui` table. -/
def known_building_types : List String :=
  ["Office", "Retail", "Healthcare", "Educational", "Warehouse", "Multi-Family", "Hotel"]

/-- An unknown building type misses every entry of the EUI table. -/
lemma baseline_eui_find?_eq_none {t : String} (ht : t ∉ known_building_types) :
    baseline_eui.find? (fun p => p.1 == t) = none := by
  rw [List.find?_eq_none]
  intro x hx
  simp only [known_building_types, List.mem_cons, not_or, List.not_mem_nil] at ht
  fin_cases hx <;> simp only [beq_iff_eq, decide_eq_true_eq] <;>
    intro hEq <;>
    first
      | exact ht.1 hEq.symm
      | exact ht.2.1 hEq.symm
      | exact ht.2.2.1 hEq.symm
      | exact ht.2.2.2.1 hEq.symm
      | exact ht.2.2.2.2.1 hEq.symm
      | exact ht.2.2.2.2.2.1 hEq.symm
      | exact ht.2.2.2.2.2.2.1 hEq.symm

/-- **C5.** For every floor area and building category,
`estimate_baseline_emissions` returns `floor_area * EUI * 0.145 / 1000` tons,
where the EUI is the fixed table value — Office 58, Retail 52, Healthcare 215,
Educational 70, Warehouse 32, Multi-Family 46, Hotel 88 — and any category not
in the table uses the default constant 60.  (The Lean function is pure by
construction, matching the "no randomness, no side effects" part.) -/
theorem C5_baseline_formula (floor_area : ℚ) :
    estimate_baseline_emissions floor_area "Office" = floor_area * 58 * (0.145 : ℚ) / 1000 ∧
    estimate_baseline_emissions floor_area "Retail" = floor_area * 52 * (0.145 : ℚ) / 1000 ∧
    estimate_baseline_emissions floor_area "Healthcare" = floor_area * 215 * (0.145 : ℚ) / 1000 ∧
    estimate_baseline_emissions floor_area "Educational" = floor_area * 70 * (0.145 : ℚ) / 1000 ∧
    estimate_baseline_emissions floor_area "Warehouse" = floor_area * 32 * (0.145 : ℚ) / 1000 ∧
    estimate_baseline_emissions floor_area "Multi-Family" = floor_area * 46 * (0.145 : ℚ) / 1000 ∧
    estimate_baseline_emissions floor_area "Hotel" = floor_area * 88 * (0.145 : ℚ) / 1000 ∧
    ∀ t : String, t ∉ known_building_types →
      estimate_baseline_emissions floor_area t = floor_area * 60 * (0.145 : ℚ) / 1000 := by
  refine ⟨?_, ?_, ?_, ?_, ?_, ?_, ?_, ?_⟩
  · simp [estimate_baseline_emissions, eui_lookup, baseline_eui, List.find?]
  · simp [estimate_baseline_emissions, eui_lookup, baseline_eui, List.find?]
  · simp [estimate_baseline_emissions, eui_lookup, baseline_eui, List.find?]
  · simp [estimate_baseline_emissions, eui_lookup, baseline_eui, List.find?]
  · simp [estimate_baseline_emissions, eui_lookup, baseline_eui, List.find?]
  · simp [estimate_baseline_emissions, eui_lookup, baseline_eui, List.find?]
  · simp [estimate_baseline_emissions, eui_lookup, baseline_eui, List.find?]
  · intro t ht
    simp [estimate_baseline_emissions, eui_lookup, baseline_eui_find?_eq_none ht]

/-- Witness for C5: a concrete area, a table category, and a concrete unknown
category hitting the default. -/
theorem C5_baseline_formula_witness :
    estimate_baseline_emissions 15000 "Office" = 15000 * 58 * (0.145 : ℚ) / 1000 ∧
    ("Condo" ∉ known_building_types ∧
      estimate_baseline_emissions 15000 "Condo" = 15000 * 60 * (0.145 : ℚ) / 1000) :=
  ⟨(C5_baseline_formula 15000).1,
   by decide,
   (C5_baseline_formula 15000).2.2.2.2.2.2.2 "Condo" (by decide)⟩

/-- **C7.** The performance rating assigned by `assess_building` follows
exactly the five ordered bands: credits ≥ 13 gives "Exceptional",
7 ≤ credits < 13 gives "High Performance", 3 ≤ credits < 7 gives
"Above Average", 1 ≤ credits < 3 gives "Slightly Above Baseline", and
credits < 1 gives "Below Baseline"; `assess_building` applies exactly this
ladder to the earned credits of its LEED assessment. -/
theorem C7_performance_bands (earned : ℕ) :
    (13 ≤ earned → performance_rating_of earned = "Exceptional") ∧
    (7 ≤ earned ∧ earned < 13 → performance_rating_of earned = "High Performance") ∧
    (3 ≤ earned ∧ earned < 7 → performance_rating_of earned = "Above Average") ∧
    (1 ≤ earned ∧ earned < 3 → performance_rating_of earned = "Slightly Above Baseline") ∧
    (earned < 1 → performance_rating_of earned = "Below Baseline") ∧
    (∀ (predicted floor_area : ℚ) (building_type : String) (features : Features),
      (assess_building predicted floor_area building_type features).performance_rating
        = performance_rating_of
            (assess_building predicted floor_area building_type
              features).leed_assessment.earned_credits) := by
  refine ⟨?_, ?_, ?_, ?_, ?_, fun _ _ _ _ => rfl⟩ <;>
    (intro h; unfold performance_rating_of; split_ifs <;> first | rfl | omega)

/-- Witness for C7: one representative credit count per band. -/
theorem C7_performance_bands_witness :
    performance_rating_of 13 = "Exceptional" ∧
    performance_rating_of 7 = "High Performance" ∧
    performance_rating_of 3 = "Above Average" ∧
    performance_rating_of 1 = "Slightly Above Baseline" ∧
    performance_rating_of 0 = "Below Baseline" :=
  ⟨(C7_performance_bands 13).1 (by decide),
   (C7_performance_bands 7).2.1 (by decide),
   (C7_performance_bands 3).2.2.1 (by decide),
   (C7_performance_bands 1).2.2.2.1 (by decide),
   (C7_performance_bands 0).2.2.2.2.1 (by decide)⟩

/-- The improvement categories priced by the `roi_data` dictionary. -/
def known_improvement_types : List String :=
  ["Renewable Energy (Solar)", "HVAC Upgrade (Heat Pump)", "Insulation Upgrade",
   "LED Retrofit", "Building Envelope"]

/-- An unknown improvement type misses every entry of `roi_data`. -/
lemma roi_data_find?_eq_none {t : String} (ht : t ∉ known_improvement_types) :
    roi_data.find? (fun p => p.1 == t) = none := by
  rw [List.find?_eq_none]
  intro x hx
  simp only [known_improvement_types, List.mem_cons, not_or, List.not_mem_nil] at ht
  fin_cases hx <;> simp only [beq_iff_eq, decide_eq_true_eq] <;>
    intro hEq <;>
    first
      | exact ht.1 hEq.symm
      | exact ht.2.1 hEq.symm
      | exact ht.2.2.1 hEq.symm
      | exact ht.2.2.2.1 hEq.symm
      | exact ht.2.2.2.2.1 hEq.symm

/-- **C8.** For every improvement category string not among the five known
categories, `calculate_improvement_roi` returns the explicit no-result value
(`None`, modelled `Except.ok none`) and raises no exception, whatever the
other arguments are. -/
theorem C8_unknown_category (improvement_type : String)
    (current_emissions floor_area : ℚ) (building_type : String)
    (ht : improvement_type ∉ known_improvement_types) :
    calculate_improvement_roi improvement_type current_emissions floor_area building_type
      = Except.ok none := by
  unfold calculate_improvement_roi
  rw [roi_data_find?_eq_none ht]
  rfl

/-- Witness for C8: the concrete unknown category "Green Roof". -/
theorem C8_unknown_category_witness :
    "Green Roof" ∉ known_improvement_types ∧
    calculate_improvement_roi "Green Roof" 100 5000 "Office" = Except.ok none :=
  ⟨by decide, C8_unknown_category "Green Roof" 100 5000 "Office" (by decide)⟩

/-- **C9.** `calculate_improvement_roi` is insensitive to its `building_type`
argument: two runs differing only in `building_type` return equal results
(the parameter is accepted but never read). -/
theorem C9_building_type_unused (improvement_type : String)
    (current_emissions floor_area : ℚ) (t1 t2 : String)
    (hfa : 0 < floor_area) :
    calculate_improvement_roi improvement_type current_emissions floor_area t1
      = calculate_improvement_roi improvement_type current_emissions floor_area t2 := rfl

/-- Witness for C9: a concrete pair of building types. -/
theorem C9_building_type_unused_witness :
    calculate_improvement_roi "LED Retrofit" 100 5000 "Office"
      = calculate_improvement_roi "LED Retrofit" 100 5000 "Hotel" :=
  C9_building_type_unused "LED Retrofit" 100 5000 "Office" "Hotel" (by norm_num)

/-- The points column of the tier table is non-decreasing along the scan. -/
lemma leed_points_pairwise :
    leed_ea_points.Pairwise (fun p q => p.1 ≤ q.1) := by
  simp [leed_ea_points, List.pairwise_cons]

/-- Below the lowest threshold the spec-side earned credits are `0`. -/
lemma earned_credits_spec_of_lt {imp : ℚ} (h : imp < 2) :
    earned_credits_spec imp = 0 := by
  have hnone : leed_ea_points.reverse.find? (fun p => decide (p.2 ≤ imp)) = none := by
    rw [List.find?_eq_none]
    intro x hx
    rw [List.mem_reverse] at hx
    fin_cases hx <;> simp <;> linarith
  unfold earned_credits_spec
  rw [hnone]
  rfl

/-- **C2.** For every predicted value and every baseline > 0,
`calculate_leed_ea_credits` computes
`improvement_pct = (baseline - predicted)/baseline * 100` and returns as
`earned_credits` the points value of the highest threshold in the tier table
that is ≤ `improvement_pct` (boundary inclusive), `0` when no threshold is
satisfied — in particular `0` for negative improvement (`predicted >
baseline`) — and never errors (the Lean function is total).  The tier table's
thresholds are strictly increasing, so "highest threshold satisfied" is the
last satisfied entry in ascending scan order, which is what
`earned_credits_spec` reads off. -/
theorem C2_earned_credits (predicted baseline : ℚ) (hb : 0 < baseline) :
    improvement_pct predicted baseline = (baseline - predicted) / baseline * 100 ∧
    leed_ea_points.Pairwise (fun p q => p.2 < q.2) ∧
    (calculate_leed_ea_credits predicted baseline).earned_credits
      = earned_credits_spec (improvement_pct predicted baseline) ∧
    (baseline < predicted →
      (calculate_leed_ea_credits predicted baseline).earned_credits = 0) := by
  have hmain : (calculate_leed_ea_credits predicted baseline).earned_credits
      = earned_credits_spec (improvement_pct predicted baseline) := by
    show earned_credits_of (improvement_pct predicted baseline)
        = earned_credits_spec (improvement_pct predicted baseline)
    unfold earned_credits_of earned_credits_spec
    exact foldl_earn_eq_reverse_find _ leed_ea_points 0
  refine ⟨rfl, by norm_num [leed_ea_points, List.pairwise_cons], hmain, ?_⟩
  intro hlt
  rw [hmain]
  apply earned_credits_spec_of_lt
  have hneg : (baseline - predicted) / baseline < 0 :=
    div_neg_of_neg_of_pos (by linarith) hb
  unfold improvement_pct
  nlinarith

/-- Witness for C2 at predicted 87.2, baseline 126.15 (> 0, and also in the
negative-improvement case predicted 200 > baseline 126.2). -/
theorem C2_earned_credits_witness :
    (calculate_leed_ea_credits (87.2 : ℚ) (126.15 : ℚ)).earned_credits
        = earned_credits_spec (improvement_pct (87.2 : ℚ) (126.15 : ℚ)) ∧
    (calculate_leed_ea_credits (200 : ℚ) (126.2 : ℚ)).earned_credits = 0 :=
  ⟨(C2_earned_credits (87.2 : ℚ) (126.15 : ℚ) (by norm_num)).2.2.1,
   (C2_earned_credits (200 : ℚ) (126.2 : ℚ) (by norm_num)).2.2.2 (by norm_num)⟩

/-- **C4.** Tier evaluation is antitone in the prediction: for every fixed
baseline > 0 and predictions p1 ≤ p2, the credits earned at p2 are at most
the credits earned at p1. -/
theorem C4_earned_credits_antitone (baseline p1 p2 : ℚ)
    (hb : 0 < baseline) (hp : p1 ≤ p2) :
    (calculate_leed_ea_credits p2 baseline).earned_credits ≤
      (calculate_leed_ea_credits p1 baseline).earned_credits := by
  show earned_credits_of (improvement_pct p2 baseline) ≤
      earned_credits_of (improvement_pct p1 baseline)
  have himp : improvement_pct p2 baseline ≤ improvement_pct p1 baseline := by
    unfold improvement_pct
    have h1 : (baseline - p2) / baseline ≤ (baseline - p1) / baseline :=
      (div_le_div_right hb).mpr (by linarith)
    nlinarith
  unfold earned_credits_of
  exact foldl_earn_mono himp leed_ea_points 0 0 (le_refl 0)
    (fun p _ => Nat.zero_le _) leed_points_pairwise

/-- Witness for C4 at baseline 126.15 and predictions 87.2 ≤ 100. -/
theorem C4_earned_credits_antitone_witness :
    (calculate_leed_ea_credits (100 : ℚ) (126.15 : ℚ)).earned_credits ≤
      (calculate_leed_ea_credits (87.2 : ℚ) (126.15 : ℚ)).earned_credits :=
  C4_earned_credits_antitone (126.15 : ℚ) (87.2 : ℚ) 100 (by norm_num) (by norm_num)

/-- Evaluating `round1` when the fractional part of `10 * x` is below one
half: the result is `n / 10` with `n` the floor of `10 * x`. -/
lemma round1_eq_of_frac_lt {x : ℚ} (n : ℤ) (h1 : (n : ℚ) ≤ 10 * x)
    (h3 : 10 * x - n < 1/2) : round1 x = (n : ℚ) / 10 := by
  have hf : ⌊10 * x⌋ = n := by
    rw [Int.floor_eq_iff]
    exact ⟨h1, by push_cast; linarith⟩
  unfold round1 rhe
  rw [hf, if_pos (by push_cast; linarith)]

/-- Evaluating `round1` when the fractional part of `10 * x` is above one
half: the result is `(n + 1) / 10` with `n` the floor of `10 * x`. -/
lemma round1_eq_of_frac_gt {x : ℚ} (n : ℤ) (h2 : 10 * x < (n : ℚ) + 1)
    (h3 : 1/2 < 10 * x - n) : round1 x = ((n : ℚ) + 1) / 10 := by
  have hf : ⌊10 * x⌋ = n := by
    rw [Int.floor_eq_iff]
    exact ⟨by push_cast; linarith, by push_cast; linarith⟩
  unfold round1 rhe
  rw [hf, if_neg (by push_cast; linarith), if_pos (by push_cast; linarith)]
  push_cast
  ring

/-- The reported reduction field, when the scan found a next level. -/
lemma emissions_reduction_of_next_some {predicted baseline : ℚ} {pts : ℕ} {t : ℚ}
    (h : next_level_of (improvement_pct predicted baseline) = some (pts, t)) :
    (calculate_leed_ea_credits predicted baseline).emissions_reduction_needed_tons
      = if predicted - baseline * (1 - t / 100) > 0
        then round1 (predicted - baseline * (1 - t / 100)) else 0 := by
  unfold calculate_leed_ea_credits
  simp only [h]

/-- The reported reduction field, when no next level exists. -/
lemma emissions_reduction_of_next_none {predicted baseline : ℚ}
    (h : next_level_of (improvement_pct predicted baseline) = none) :
    (calculate_leed_ea_credits predicted baseline).emissions_reduction_needed_tons = 0 := by
  unfold calculate_leed_ea_credits
  simp only [h]
  norm_num

/-- The Office baseline at 15000 sqft: `15000 * 58 * 0.145 / 1000 = 126.15`. -/
lemma baseline_office_15000 : estimate_baseline_emissions 15000 "Office" = 2523/20 := by
  simp only [estimate_baseline_emissions, eui_lookup, baseline_eui, List.find?]
  norm_num

/-- The improvement percentage of the C1 scenario is exactly `77900/2523`
(about 30.876 %). -/
lemma improvement_c1 : improvement_pct (87.2 : ℚ) (2523/20) = 77900/2523 := by
  unfold improvement_pct
  norm_num

/-- At improvement `77900/2523` the earned-credits fold stops at the 30 %
tier, worth 15 points. -/
lemma earned_c1 : earned_credits_of (77900/2523 : ℚ) = 15 := by
  unfold earned_credits_of leed_ea_points
  norm_num [List.foldl]

/-- **C1 (counterexample).** In the concrete scenario floor_area 15000,
category Office, predicted 87.2 tons, the earned credits are *not* 17: the
improvement (≈ 30.88 %) clears the 30 % threshold (15 points) but not the
34 % threshold that 17 points would require. -/
theorem C1_scenario_counterexample :
    (calculate_leed_ea_credits (87.2 : ℚ)
        (estimate_baseline_emissions 15000 "Office")).earned_credits ≠ 17 := by
  rw [baseline_office_15000]
  show earned_credits_of (improvement_pct (87.2 : ℚ) (2523/20)) ≠ 17
  rw [improvement_c1, earned_c1]
  decide

/-- **C1 (amended).** For floor_area 15000, category Office, predicted 87.2
tons: the baseline from `estimate_baseline_emissions` (EUI 58, factor 0.145)
is exactly 126.15 ≈ 126.2 tons, the improvement percentage is 77900/2523 ≈
30.9 % (reported as 30.9 after rounding), and the earned credits equal 15 —
the ≥ 30 % tier of the table, not 17 (which demands ≥ 34 %). -/
theorem C1_scenario_amended :
    estimate_baseline_emissions 15000 "Office" = 2523/20 ∧
    |estimate_baseline_emissions 15000 "Office" - (126.2 : ℚ)| ≤ 1/10 ∧
    improvement_pct (87.2 : ℚ) (2523/20) = 77900/2523 ∧
    |improvement_pct (87.2 : ℚ) (2523/20) - (30.9 : ℚ)| ≤ 1/10 ∧
    (calculate_leed_ea_credits (87.2 : ℚ)
        (estimate_baseline_emissions 15000 "Office")).current_improvement_pct = 30.9 ∧
    (calculate_leed_ea_credits (87.2 : ℚ)
        (estimate_baseline_emissions 15000 "Office")).earned_credits = 15 := by
  refine ⟨baseline_office_15000, ?_, improvement_c1, ?_, ?_, ?_⟩
  · rw [baseline_office_15000]
    rw [abs_le]
    constructor <;> norm_num
  · rw [improvement_c1]
    rw [abs_le]
    constructor <;> norm_num
  · rw [baseline_office_15000]
    show round1 (improvement_pct (87.2 : ℚ) (2523/20)) = 30.9
    rw [improvement_c1, round1_eq_of_frac_gt 308 (by norm_num) (by norm_num)]
    norm_num
  · rw [baseline_office_15000]
    show earned_credits_of (improvement_pct (87.2 : ℚ) (2523/20)) = 15
    rw [improvement_c1, earned_c1]

/-- In the negative-improvement scenario (predicted 200, baseline 126.2) the
next-level scan stops at the first tier. -/
lemma next_level_c3 :
    next_level_of (improvement_pct (200 : ℚ) (126.2 : ℚ)) = some (1, 2) := by
  unfold next_level_of leed_ea_points
  exact List.find?_cons_of_pos _ (by norm_num [improvement_pct])

/-- **C3 (counterexample).** At predicted 200, baseline 126.2, the next tier
is the lowest threshold (2 %), and the claimed reported reduction
`predicted - baseline * (1 - 2/100) = 76.324` is positive, yet the code
reports `round(76.324, 1) = 76.3` — the reported value does not equal the
clamped raw value. -/
theorem C3_next_tier_counterexample :
    (calculate_leed_ea_credits (200 : ℚ) (126.2 : ℚ)).next_level_improvement_pct = some 2 ∧
    (calculate_leed_ea_credits (200 : ℚ) (126.2 : ℚ)).emissions_reduction_needed_tons = 76.3 ∧
    (0 : ℚ) < 200 - (126.2 : ℚ) * (1 - 2/100) ∧
    (calculate_leed_ea_credits (200 : ℚ) (126.2 : ℚ)).emissions_reduction_needed_tons ≠
      200 - (126.2 : ℚ) * (1 - 2/100) := by
  have hval : (calculate_leed_ea_credits (200 : ℚ) (126.2 : ℚ)).emissions_reduction_needed_tons
      = 76.3 := by
    rw [emissions_reduction_of_next_some next_level_c3, if_pos (by norm_num),
      round1_eq_of_frac_lt 763 (by norm_num) (by norm_num)]
    norm_num
  refine ⟨?_, hval, by norm_num, ?_⟩
  · show (next_level_of (improvement_pct (200 : ℚ) (126.2 : ℚ))).map Prod.snd = some 2
    rw [next_level_c3]
    rfl
  · rw [hval]
    norm_num

/-- **C3 (amended).** For every predicted value and baseline > 0: the next
tier is the first table entry whose threshold strictly exceeds
`improvement_pct` (credits and threshold reported from that entry), absent
exactly when `improvement_pct` meets or exceeds the maximum threshold 36;
when a next tier (pts, t) exists the reported reduction equals
`predicted - baseline * (1 - t/100)` **rounded to one decimal
(round-half-to-even)** when that raw value is positive and `0` otherwise;
and when predicted > baseline the next tier is the first/lowest threshold
(2 %, 1 credit), the raw required reduction is strictly positive, and the
reported value is ≥ 0 (rounding can report 0 when the raw gap is below
0.05). -/
theorem C3_next_tier_amended (predicted baseline : ℚ) (hb : 0 < baseline) :
    (calculate_leed_ea_credits predicted baseline).next_level_credits
        = (next_tier_spec (improvement_pct predicted baseline)).map Prod.fst ∧
    (calculate_leed_ea_credits predicted baseline).next_level_improvement_pct
        = (next_tier_spec (improvement_pct predicted baseline)).map Prod.snd ∧
    (next_tier_spec (improvement_pct predicted baseline) = none ↔
        36 ≤ improvement_pct predicted baseline) ∧
    (∀ (pts : ℕ) (t : ℚ),
      next_tier_spec (improvement_pct predicted baseline) = some (pts, t) →
      (calculate_leed_ea_credits predicted baseline).emissions_reduction_needed_tons
        = if predicted - baseline * (1 - t / 100) > 0
          then round1 (predicted - baseline * (1 - t / 100)) else 0) ∧
    (baseline < predicted →
      next_tier_spec (improvement_pct predicted baseline) = some (1, 2) ∧
      0 < predicted - baseline * (1 - 2/100) ∧
      0 ≤ (calculate_leed_ea_credits predicted baseline).emissions_reduction_needed_tons) := by
  refine ⟨rfl, rfl, ?_, ?_, ?_⟩
  · unfold next_tier_spec
    rw [List.find?_eq_none]
    constructor
    · intro h
      have h36 := h (18, 36) (by norm_num [leed_ea_points])
      simpa [not_lt] using h36
    · intro h x hx
      fin_cases hx <;> simp <;> linarith
  · intro pts t hsome
    exact emissions_reduction_of_next_some hsome
  · intro hlt
    have himp : improvement_pct predicted baseline < 2 := by
      have hneg : (baseline - predicted) / baseline < 0 :=
        div_neg_of_neg_of_pos (by linarith) hb
      unfold improvement_pct
      nlinarith
    have hfirst : next_tier_spec (improvement_pct predicted baseline) = some (1, 2) := by
      unfold next_tier_spec leed_ea_points
      exact List.find?_cons_of_pos _ (by simpa using himp)
    exact ⟨hfirst, by linarith, emissions_reduction_nonneg _ _⟩

/-- Witness for C3 (amended) at predicted 200, baseline 126.2 (> 0), the
negative-improvement branch. -/
theorem C3_next_tier_amended_witness :
    next_tier_spec (improvement_pct (200 : ℚ) (126.2 : ℚ)) = some (1, 2) ∧
    (0 : ℚ) < 200 - (126.2 : ℚ) * (1 - 2/100) ∧
    0 ≤ (calculate_leed_ea_credits (200 : ℚ) (126.2 : ℚ)).emissions_reduction_needed_tons :=
  (C3_next_tier_amended 200 (126.2 : ℚ) (by norm_num)).2.2.2.2 (by norm_num)

/-- **C6.** For every feature dictionary and outstanding gap ≥ 0, the
generator fires exactly the rules whose conditions hold (renewable < 30 with
impact 0.30·gap, gas-furnace/electric-baseboard HVAC with 0.25·gap,
poor/fair insulation with 0.20·gap, LED < 90 with 0.10·gap — the fired list
`fired_rules_spec`), returns them sorted descending by estimated impact
(every fired rule appears, nothing else), with ties keeping rule-evaluation
order (when the gap is 0 all impacts tie and the order is exactly the rule
order), all impacts nonnegative; and for renewable 10, Gas Furnace, Fair
insulation, LED 60, gap 30 it returns exactly the four recommendations
ordered renewable 9.0, hvac 7.5, insulation 6.0, led 3.0. -/
theorem C6_recommendations (features : Features) (gap : ℚ) (hgap : 0 ≤ gap) :
    List.Perm (generate_cert_recommendations features gap) (fired_rules_spec features gap) ∧
    List.Pairwise impGE (generate_cert_recommendations features gap) ∧
    (gap = 0 → generate_cert_recommendations features gap = fired_rules_spec features gap) ∧
    (∀ r ∈ generate_cert_recommendations features gap, 0 ≤ r.estimated_impact_tons) ∧
    (generate_cert_recommendations
        { renewable_pct := some 10, hvac_type := some "Gas Furnace",
          insulation_rating := some "Fair", led_lighting_pct := some 60 } 30).map
          (fun r => (r.category, r.estimated_impact_tons))
      = [("Renewable Energy", 9), ("HVAC Efficiency", 7.5),
         ("Building Envelope", 6), ("Lighting Systems", 3)] := by
  have hlist : cert_rule_list features gap = fired_rules_spec features gap := rfl
  refine ⟨?_, ?_, ?_, ?_, ?_⟩
  · rw [← hlist]
    exact List.perm_insertionSort impGE _
  · exact List.sorted_insertionSort impGE _
  · intro h0
    subst h0
    rw [← hlist]
    apply insertionSort_impGE_of_const (v := 0)
    intro x hx
    rcases mem_cert_rule_list hx with h | h | h | h <;> rw [h] <;> norm_num
  · intro r hr
    have hr' : r ∈ cert_rule_list features gap := (List.mem_insertionSort impGE).mp hr
    rcases mem_cert_rule_list hr' with h | h | h | h <;> rw [h] <;>
      exact mul_nonneg hgap (by norm_num)
  · norm_num [generate_cert_recommendations, cert_rule_list, List.insertionSort,
      List.orderedInsert, impGE]

/-- Witness for C6 with the scenario gap 30 ≥ 0 and its features. -/
theorem C6_recommendations_witness :
    List.Pairwise impGE
      (generate_cert_recommendations
        { renewable_pct := some 10, hvac_type := some "Gas Furnace",
          insulation_rating := some "Fair", led_lighting_pct := some 60 } 30) :=
  (C6_recommendations
    { renewable_pct := some 10, hvac_type := some "Gas Furnace",
      insulation_rating := some "Fair", led_lighting_pct := some 60 } 30
    (by norm_num)).2.1

/-- **C10.** For every call to `assess_building` with floor_area > 0 (the
computed baseline is then strictly positive), the
`emissions_reduction_needed_tons` in the returned assessment is ≥ 0, the gap
passed to the recommendation generator is that same clamped value, and every
returned recommendation has a nonnegative estimated impact. -/
theorem C10_assessment_nonneg (predicted floor_area : ℚ) (building_type : String)
    (features : Features) (ha : 0 < floor_area) :
    0 < estimate_baseline_emissions floor_area building_type ∧
    0 ≤ (assess_building predicted floor_area building_type
          features).leed_assessment.emissions_reduction_needed_tons ∧
    (assess_building predicted floor_area building_type features).recommendations
      = generate_cert_recommendations features
          (assess_building predicted floor_area building_type
            features).leed_assessment.emissions_reduction_needed_tons ∧
    ∀ r ∈ (assess_building predicted floor_area building_type features).recommendations,
      0 ≤ r.estimated_impact_tons := by
  have hgap : 0 ≤ (assess_building predicted floor_area building_type
      features).leed_assessment.emissions_reduction_needed_tons :=
    emissions_reduction_nonneg _ _
  refine ⟨?_, hgap, rfl, ?_⟩
  · have heui := eui_lookup_pos building_type
    unfold estimate_baseline_emissions
    have h1 : 0 < floor_area * eui_lookup building_type * (0.145 : ℚ) := by
      apply mul_pos (mul_pos ha heui)
      norm_num
    exact div_pos h1 (by norm_num)
  · intro r hr
    have hr' : r ∈ cert_rule_list features
        (assess_building predicted floor_area building_type
          features).leed_assessment.emissions_reduction_needed_tons :=
      (List.mem_insertionSort impGE).mp hr
    rcases mem_cert_rule_list hr' with h | h | h | h <;> rw [h] <;>
      exact mul_nonneg hgap (by norm_num)

/-- Witness for C10 at the C1 scenario inputs (floor_area 15000 > 0). -/
theorem C10_assessment_nonneg_witness :
    0 < estimate_baseline_emissions 15000 "Office" ∧
    0 ≤ (assess_building (87.2 : ℚ) 15000 "Office"
          { renewable_pct := some 10, hvac_type := some "Gas Furnace",
            insulation_rating := some "Fair", led_lighting_pct := some 60
          }).leed_assessment.emissions_reduction_needed_tons :=
  ⟨(C10_assessment_nonneg (87.2 : ℚ) 15000 "Office"
      { renewable_pct := some 10, hvac_type := some "Gas Furnace",
        insulation_rating := some "Fair", led_lighting_pct := some 60 }
      (by norm_num)).1,
   (C10_assessment_nonneg (87.2 : ℚ) 15000 "Office"
      { renewable_pct := some 10, hvac_type := some "Gas Furnace",
        insulation_rating := some "Fair", led_lighting_pct := some 60 }
      (by norm_num)).2.1⟩
